import Mathlib

/-!
Verification of the Forecast Record Extractor & Formatter.

Shallow embedding of the relevant logic of `src/main.py`:
* `WeatherApp.get_weather_text` (the static weather-code table and fallback),
* `WeatherApp.display_weather_info` (the forecast-JSON walk emitting display
  records), modelled as a pure function from the parsed document shape to a
  list of tagged `DisplayRecord`s (one record per `ft.Text` line appended),
* `WeatherApp.load_area_list` (the area-catalog construction and sort).

JSON optionality is modelled with `Option`; Python `dict`s are modelled as
insertion-ordered association lists; Python's stable `sorted` by name is
modelled with `List.insertionSort` on a non-strict name comparison (both are
stable sorts by the same key, hence agree).
-/

/-- Single-character split, mirroring Python `s.split(sep)` for a
one-character separator: the list of (possibly empty) chunks between
occurrences of `c`. -/
def splitOnChar (c : Char) : List Char → List (List Char)
  | [] => [[]]
  | x :: xs =>
    let r := splitOnChar c xs
    if x = c then [] :: r
    else
      match r with
      | [] => [[x]]
      | y :: ys => (x :: y) :: ys

/-- Mirrors Python `sep.join(parts)` for a one-character separator. -/
def joinChar (sep : Char) : List (List Char) → List Char
  | [] => []
  | [x] => x
  | x :: xs => x ++ sep :: joinChar sep xs

/-- Date shortening from `display_weather_info` (src/main.py lines 300-306),
on the character list of `time_def`:
if the string contains a `T`, take the part before the first `T`; if that
part contains a `-`, join its dash-separated components at positions 1 and 2
with `/`, otherwise use that part verbatim; if the string has no `T`, take
its first 10 characters. -/
def dateShortL (cs : List Char) : List Char :=
  if cs.any (fun c => c = 'T') then
    let date_part := (splitOnChar 'T' cs).headD []
    if date_part.any (fun c => c = '-') then
      joinChar '/' (((splitOnChar '-' date_part).drop 1).take 2)
    else date_part
  else
    if cs.length ≥ 10 then cs.take 10 else cs

/-- `dateShort` on strings: the `date_short` computation of the source. -/
def dateShort (time_def : String) : String :=
  String.mk (dateShortL time_def.data)

/-- The static weather-code table of `get_weather_text` (src/main.py lines
399-509), as an insertion-ordered association list. -/
def weather_map : List (String × String) := [
  ("100", "晴れ"),
  ("101", "晴れ時々曇り"),
  ("102", "晴れ一時雨"),
  ("103", "晴れ時々雨"),
  ("104", "晴れ一時雪"),
  ("105", "晴れ時々雪"),
  ("106", "晴れ一時雨か雪"),
  ("107", "晴れ時々雨か雪"),
  ("108", "晴れ一時雨か雷雨"),
  ("110", "晴れ後時々曇り"),
  ("111", "晴れ後曇り"),
  ("112", "晴れ後一時雨"),
  ("113", "晴れ後時々雨"),
  ("114", "晴れ後雨"),
  ("115", "晴れ後一時雪"),
  ("116", "晴れ後時々雪"),
  ("117", "晴れ後雪"),
  ("118", "晴れ後雨か雪"),
  ("119", "晴れ後雨か雷雨"),
  ("120", "晴れ朝夕一時雨"),
  ("121", "晴れ朝の内一時雨"),
  ("122", "晴れ夕方一時雨"),
  ("123", "晴れ山沿い雷雨"),
  ("124", "晴れ山沿い雪"),
  ("125", "晴れ午後は雷雨"),
  ("126", "晴れ午後は雪"),
  ("130", "朝の内霧後晴れ"),
  ("131", "晴れ明け方霧"),
  ("132", "晴れ朝夕曇り"),
  ("140", "晴れ時々雨で雷を伴う"),
  ("200", "曇り"),
  ("201", "曇り時々晴れ"),
  ("202", "曇り一時雨"),
  ("203", "曇り時々雨"),
  ("204", "曇り一時雪"),
  ("205", "曇り時々雪"),
  ("206", "曇り一時雨か雪"),
  ("207", "曇り時々雨か雪"),
  ("208", "曇り一時雨か雷雨"),
  ("209", "霧"),
  ("210", "曇り後時々晴れ"),
  ("211", "曇り後晴れ"),
  ("212", "曇り後一時雨"),
  ("213", "曇り後時々雨"),
  ("214", "曇り後雨"),
  ("215", "曇り後一時雪"),
  ("216", "曇り後時々雪"),
  ("217", "曇り後雪"),
  ("218", "曇り後雨か雪"),
  ("219", "曇り後雨か雷雨"),
  ("220", "曇り朝夕一時雨"),
  ("221", "曇り朝の内一時雨"),
  ("222", "曇り夕方一時雨"),
  ("223", "曇り日中時々晴れ"),
  ("224", "曇り昼頃から雨"),
  ("225", "曇り夕方から雨"),
  ("226", "曇り夜は雨"),
  ("227", "曇り夜半から雨"),
  ("228", "曇り昼頃から雪"),
  ("229", "曇り夕方から雪"),
  ("230", "曇り夜は雪"),
  ("231", "曇り海上海岸は霧か霧雨"),
  ("300", "雨"),
  ("301", "雨時々晴れ"),
  ("302", "雨時々止む"),
  ("303", "雨時々雪"),
  ("304", "雨か雪"),
  ("306", "大雨"),
  ("308", "雨で暴風を伴う"),
  ("309", "雨一時雪"),
  ("311", "雨後晴れ"),
  ("313", "雨後曇り"),
  ("314", "雨後時々雪"),
  ("315", "雨後雪"),
  ("316", "雨か雪後晴れ"),
  ("317", "雨か雪後曇り"),
  ("320", "朝の内雨後晴れ"),
  ("321", "朝の内雨後曇り"),
  ("322", "雨朝晩一時雪"),
  ("323", "雨昼頃から晴れ"),
  ("324", "雨夕方から晴れ"),
  ("325", "雨夜は晴れ"),
  ("326", "雨夕方から雪"),
  ("327", "雨夜は雪"),
  ("328", "雨一時強く降る"),
  ("329", "雨一時みぞれ"),
  ("340", "雪か雨"),
  ("350", "雨で雷を伴う"),
  ("361", "雪か雨後晴れ"),
  ("371", "雪か雨後曇り"),
  ("400", "雪"),
  ("401", "雪時々晴れ"),
  ("402", "雪時々止む"),
  ("403", "雪時々雨"),
  ("405", "大雪"),
  ("406", "風雪強い"),
  ("407", "暴風雪"),
  ("409", "雪一時雨"),
  ("411", "雪後晴れ"),
  ("413", "雪後曇り"),
  ("414", "雪後雨"),
  ("420", "朝の内雪後晴れ"),
  ("421", "朝の内雪後曇り"),
  ("422", "雪昼頃から雨"),
  ("423", "雪夕方から雨"),
  ("425", "雪一時強く降る"),
  ("426", "雪後みぞれ"),
  ("427", "雪一時みぞれ"),
  ("450", "雪で雷を伴う")
]

/-- `WeatherApp.get_weather_text` (src/main.py lines 397-510): looks the code
up in the table and falls back to the Japanese word for unknown wrapping the
original code. -/
def get_weather_text (weather_code : String) : String :=
  match weather_map.lookup weather_code with
  | some t => t
  | none => "不明(" ++ weather_code ++ ")"

/-- The optional `area` object with its optional `name` field. -/
structure AreaName where
  name : Option String
deriving DecidableEq, Repr

/-- One entry of a time-series block's `areas` array; every field the code
reads is optional. `temps`/`winds`/`waves` entries model Python falsiness:
`none` (JSON null) and `some ""` are both falsy. -/
structure AreaSeriesEntry where
  area : Option AreaName := none
  weatherCodes : Option (List String) := none
  temps : Option (List (Option String)) := none
  winds : Option (List (Option String)) := none
  waves : Option (List (Option String)) := none
deriving DecidableEq, Repr

/-- One block of the `timeSeries` array. -/
structure TimeSeriesBlock where
  timeDefines : Option (List String) := none
  areas : Option (List AreaSeriesEntry) := none
deriving DecidableEq, Repr

/-- One element of the top-level forecast array. -/
structure AreaForecast where
  area : Option AreaName := none
  reportDatetime : Option String := none
  timeSeries : Option (List TimeSeriesBlock) := none
deriving DecidableEq, Repr

/-- Tagged display records: one per `ft.Text` line `display_weather_info`
appends, carrying the data the code computes for that line. `noData` is the
NO DATA AVAILABLE line (line 230), `empty` the NO DISPLAYABLE DATA line
(line 390). -/
inductive DisplayRecord where
  | areaHeader (name : String)
  | timestamp (raw : String)
  | forecastLine (areaName : String)
  | dayLine (dayIndex : Nat) (dateShort : String) (weatherText : String) (code : String)
  | tempLine (text : String)
  | windLine (text : String)
  | waveLine (text : String)
  | separator
  | noData
  | empty
deriving DecidableEq, Repr

/-- Mirrors Python `sep.join(parts)` on strings. -/
def joinSep (sep : String) : List String → String
  | [] => ""
  | [x] => x
  | x :: xs => x ++ sep ++ joinSep sep xs

/-- Python `f"\x7btemp:>3\x7d"`: pad on the left with spaces to width 3. -/
def padLeft3 (s : String) : String :=
  if s.length ≥ 3 then s else String.mk (List.replicate (3 - s.length) ' ') ++ s

/-- One temperature cell (line 326): `f"\x7btemp:>3\x7d°C" if temp else "  -"`. -/
def formatTemp (temp : Option String) : String :=
  match temp with
  | some t => if t.isEmpty then "  -" else padLeft3 t ++ "°C"
  | none => "  -"

/-- One wind/wave cell (lines 344 and 361): `x if x else "  -"`. -/
def formatCell (x : Option String) : String :=
  match x with
  | some t => if t.isEmpty then "  -" else t
  | none => "  -"

/-- `area_info.get("area", \x7b\x7d).get("name", "")` (line 280). -/
def entryAreaName (a : AreaSeriesEntry) : String :=
  match a.area with
  | some ar => ar.name.getD ""
  | none => ""

/-- Records appended by the weather-code branch (lines 283-320): a
`[FORECAST]` header then one day line per `zip(time_defines, weather_codes)`
pair. -/
def weatherRecords (time_defines : List String) (a : AreaSeriesEntry) :
    List DisplayRecord :=
  match a.weatherCodes with
  | none => []
  | some weather_codes =>
    DisplayRecord.forecastLine (entryAreaName a) ::
      (time_defines.zip weather_codes).enum.map (fun p =>
        DisplayRecord.dayLine (p.1 + 1) (dateShort p.2.1)
          (get_weather_text p.2.2) p.2.2)

/-- Records appended by the temps branch (lines 322-338). -/
def tempRecords (a : AreaSeriesEntry) : List DisplayRecord :=
  match a.temps with
  | none => []
  | some temps =>
    if temps.isEmpty then []
    else [DisplayRecord.tempLine (joinSep " | " (temps.map formatTemp))]

/-- Records appended by the winds branch (lines 340-355). -/
def windRecords (a : AreaSeriesEntry) : List DisplayRecord :=
  match a.winds with
  | none => []
  | some winds =>
    if winds.isEmpty then []
    else [DisplayRecord.windLine (joinSep " | " (winds.map formatCell))]

/-- Records appended by the waves branch (lines 357-372). -/
def waveRecords (a : AreaSeriesEntry) : List DisplayRecord :=
  match a.waves with
  | none => []
  | some waves =>
    if waves.isEmpty then []
    else [DisplayRecord.waveLine (joinSep " | " (waves.map formatCell))]

/-- All records one `area_info` contributes (body of the loop at line 279). -/
def seriesEntryRecords (time_defines : List String) (a : AreaSeriesEntry) :
    List DisplayRecord :=
  weatherRecords time_defines a ++ tempRecords a ++ windRecords a ++
    waveRecords a

/-- Records one time-series block contributes (lines 272-372): everything is
guarded by the presence of both `timeDefines` and `areas`. -/
def blockRecords (ts : TimeSeriesBlock) : List DisplayRecord :=
  match ts.timeDefines with
  | none => []
  | some time_defines =>
    match ts.areas with
    | none => []
    | some areas => areas.flatMap (seriesEntryRecords time_defines)

/-- The area header step (lines 240-253): emitted whenever the `area` key is
present, with `get("name", "不明")` as the displayed name. -/
def headerRecords (af : AreaForecast) : List DisplayRecord :=
  match af.area with
  | some ar => [DisplayRecord.areaHeader (ar.name.getD "不明")]
  | none => []

/-- The report-datetime step (lines 255-268). -/
def timestampRecords (af : AreaForecast) : List DisplayRecord :=
  match af.reportDatetime with
  | some rt => [DisplayRecord.timestamp rt]
  | none => []

/-- All records one `area_forecast` contributes, ending in the unconditional
separator (lines 238-385). -/
def forecastRecords (af : AreaForecast) : List DisplayRecord :=
  headerRecords af ++ timestampRecords af ++
    (match af.timeSeries with
     | some tss => tss.flatMap blockRecords
     | none => []) ++
    [DisplayRecord.separator]

/-- `WeatherApp.display_weather_info` (src/main.py lines 223-395) as a pure
function from the parsed document to the record sequence: empty input yields
the single `noData` record; otherwise the per-forecast records, followed by
the `empty` record only when nothing at all was appended. -/
def display_weather_info (weather_data : List AreaForecast) :
    List DisplayRecord :=
  if weather_data.isEmpty then [DisplayRecord.noData]
  else
    let recs := weather_data.flatMap forecastRecords
    if recs.isEmpty then recs ++ [DisplayRecord.empty] else recs

/-- One directory entry's payload: the optional `name` field is all the code
reads. -/
structure AreaDirInfo where
  name : Option String
deriving DecidableEq, Repr

/-- The kind tag stored in the `type` field ("center" or "office"). -/
inductive AreaType where
  | center
  | office
deriving DecidableEq, Repr

/-- One element of `self.area_list`. -/
structure AreaEntry where
  code : String
  name : String
  type : AreaType
deriving DecidableEq, Repr

/-- The parsed area directory; `centers`/`offices` are insertion-ordered
association lists modelling the Python dicts, both optional. -/
structure AreaDirectory where
  centers : Option (List (String × AreaDirInfo)) := none
  offices : Option (List (String × AreaDirInfo)) := none
deriving DecidableEq, Repr

/-- One pass of the `for code, info in mapping.items(): if "name" in info`
loop (src/main.py lines 152-169), tagging each kept entry with `t`. -/
def entriesFrom (t : AreaType) (l : List (String × AreaDirInfo)) :
    List AreaEntry :=
  l.filterMap (fun p => p.2.name.map (fun n => AreaEntry.mk p.1 n t))

/-- `self.area_list` as built at lines 151-169: centers first, then
offices, in dict insertion order, skipping entries without a `name` key. -/
def areaListRaw (d : AreaDirectory) : List AreaEntry :=
  (match d.centers with
   | some l => entriesFrom AreaType.center l
   | none => []) ++
  (match d.offices with
   | some l => entriesFrom AreaType.office l
   | none => [])

/-- The catalog in the order the dropdown shows it (line 177):
`sorted(self.area_list, key=lambda x: x["name"])`. Python `sorted` is a
stable sort by the name key, modelled by the stable `insertionSort` on the
non-strict name comparison. -/
def load_area_list (d : AreaDirectory) : List AreaEntry :=
  List.insertionSort (fun a b => a.name ≤ b.name) (areaListRaw d)

/-- Equation lemma: the weather branch with `weatherCodes` present. -/
theorem weatherRecords_some (time_defines : List String) (a : AreaSeriesEntry)
    (codes : List String) (hc : a.weatherCodes = some codes) :
    weatherRecords time_defines a =
      DisplayRecord.forecastLine (entryAreaName a) ::
        (time_defines.zip codes).enum.map (fun p =>
          DisplayRecord.dayLine (p.1 + 1) (dateShort p.2.1)
            (get_weather_text p.2.2) p.2.2) := by
  unfold weatherRecords
  rw [hc]

/-- C1: for every time-series block whose `timeDefines` is present and every
area-series entry whose `weatherCodes` is present, the weather branch emits
exactly one `ForecastLine` header followed by exactly
`min (length timeDefines) (length weatherCodes)` `DayLine` records in index
order; the record at position `i+1` carries `dayIndex = i+1`, the described
weather text of `weatherCodes[i]`, and the original code `weatherCodes[i]`;
`timeDefines` entries beyond the shorter sequence produce no records. -/
theorem C1_weather_block_structure (time_defines : List String)
    (a : AreaSeriesEntry) (codes : List String)
    (hc : a.weatherCodes = some codes) :
    (weatherRecords time_defines a).length =
      1 + min time_defines.length codes.length ∧
    (weatherRecords time_defines a)[0]? =
      some (DisplayRecord.forecastLine (entryAreaName a)) ∧
    ∀ i td c, time_defines[i]? = some td → codes[i]? = some c →
      (weatherRecords time_defines a)[i + 1]? =
        some (DisplayRecord.dayLine (i + 1) (dateShort td)
          (get_weather_text c) c) := by
  rw [weatherRecords_some time_defines a codes hc]
  refine ⟨?_, List.getElem?_cons_zero, ?_⟩
  · simp [List.length_zip, Nat.add_comm]
  · intro i td c h₁ h₂
    have hz : (time_defines.zip codes)[i]? = some (td, c) := by
      rw [List.getElem?_zip_eq_some]
      exact ⟨h₁, h₂⟩
    simp only [List.getElem?_cons_succ, List.getElem?_map,
      List.getElem?_enum, hz]
    rfl

/-- Witness for C1 at the spec's worked example: two time defines, codes
`100` and `200`. -/
theorem C1_weather_block_structure_witness :
    (weatherRecords ["2024-01-01T00:00:00+09:00", "2024-01-02T00:00:00+09:00"]
      { area := some ⟨some "Tokyo"⟩, weatherCodes := some ["100", "200"] }).length =
      1 + min 2 2 ∧
    (weatherRecords ["2024-01-01T00:00:00+09:00", "2024-01-02T00:00:00+09:00"]
      { area := some ⟨some "Tokyo"⟩, weatherCodes := some ["100", "200"] })[1]? =
      some (DisplayRecord.dayLine 1 (dateShort "2024-01-01T00:00:00+09:00")
        (get_weather_text "100") "100") :=
  ⟨(C1_weather_block_structure
      ["2024-01-01T00:00:00+09:00", "2024-01-02T00:00:00+09:00"]
      { area := some ⟨some "Tokyo"⟩, weatherCodes := some ["100", "200"] }
      ["100", "200"] rfl).1,
   (C1_weather_block_structure
      ["2024-01-01T00:00:00+09:00", "2024-01-02T00:00:00+09:00"]
      { area := some ⟨some "Tokyo"⟩, weatherCodes := some ["100", "200"] }
      ["100", "200"] rfl).2.2 0 _ _ rfl rfl⟩

/-- Every record of the header step is an `areaHeader`. -/
theorem mem_headerRecords (af : AreaForecast) (r : DisplayRecord)
    (h : r ∈ headerRecords af) : ∃ n, r = DisplayRecord.areaHeader n := by
  unfold headerRecords at h
  split at h
  · simp at h
    exact ⟨_, h⟩
  · simp at h

/-- Every record of the report-datetime step is a `timestamp`. -/
theorem mem_timestampRecords (af : AreaForecast) (r : DisplayRecord)
    (h : r ∈ timestampRecords af) : ∃ s, r = DisplayRecord.timestamp s := by
  unfold timestampRecords at h
  split at h
  · simp at h
    exact ⟨_, h⟩
  · simp at h

/-- Every record of the weather branch is a `forecastLine` or a `dayLine`. -/
theorem mem_weatherRecords (time_defines : List String) (a : AreaSeriesEntry)
    (r : DisplayRecord) (h : r ∈ weatherRecords time_defines a) :
    (∃ n, r = DisplayRecord.forecastLine n) ∨
      ∃ i d w c, r = DisplayRecord.dayLine i d w c := by
  unfold weatherRecords at h
  split at h
  · simp at h
  · rcases List.mem_cons.mp h with h | h
    · exact Or.inl ⟨_, h⟩
    · obtain ⟨p, _, hp⟩ := List.mem_map.mp h
      exact Or.inr ⟨_, _, _, _, hp.symm⟩

/-- Every record of the temps branch is a `tempLine`. -/
theorem mem_tempRecords (a : AreaSeriesEntry) (r : DisplayRecord)
    (h : r ∈ tempRecords a) : ∃ s, r = DisplayRecord.tempLine s := by
  unfold tempRecords at h
  split at h
  · simp at h
  · split at h
    · simp at h
    · simp at h
      exact ⟨_, h⟩

/-- Every record of the winds branch is a `windLine`. -/
theorem mem_windRecords (a : AreaSeriesEntry) (r : DisplayRecord)
    (h : r ∈ windRecords a) : ∃ s, r = DisplayRecord.windLine s := by
  unfold windRecords at h
  split at h
  · simp at h
  · split at h
    · simp at h
    · simp at h
      exact ⟨_, h⟩

/-- Every record of the waves branch is a `waveLine`. -/
theorem mem_waveRecords (a : AreaSeriesEntry) (r : DisplayRecord)
    (h : r ∈ waveRecords a) : ∃ s, r = DisplayRecord.waveLine s := by
  unfold waveRecords at h
  split at h
  · simp at h
  · split at h
    · simp at h
    · simp at h
      exact ⟨_, h⟩

/-- Shape of every record one `area_forecast` contributes: always one of the
seven content kinds or the separator, never `noData` or `empty`. -/
theorem mem_forecastRecords (af : AreaForecast) (r : DisplayRecord)
    (h : r ∈ forecastRecords af) :
    (∃ n, r = DisplayRecord.areaHeader n) ∨
    (∃ s, r = DisplayRecord.timestamp s) ∨
    (∃ n, r = DisplayRecord.forecastLine n) ∨
    (∃ i d w c, r = DisplayRecord.dayLine i d w c) ∨
    (∃ s, r = DisplayRecord.tempLine s) ∨
    (∃ s, r = DisplayRecord.windLine s) ∨
    (∃ s, r = DisplayRecord.waveLine s) ∨
    r = DisplayRecord.separator := by
  unfold forecastRecords at h
  rcases List.mem_append.mp h with h | h
  · rcases List.mem_append.mp h with h | h
    · rcases List.mem_append.mp h with h | h
      · exact Or.inl (mem_headerRecords af r h)
      · exact Or.inr (Or.inl (mem_timestampRecords af r h))
    · have hblock : ∃ ts : TimeSeriesBlock, r ∈ blockRecords ts := by
        split at h
        · obtain ⟨ts, _, hts⟩ := List.mem_flatMap.mp h
          exact ⟨ts, hts⟩
        · simp at h
      obtain ⟨ts, hts⟩ := hblock
      unfold blockRecords at hts
      split at hts
      · simp at hts
      · split at hts
        · simp at hts
        · obtain ⟨a, _, ha⟩ := List.mem_flatMap.mp hts
          unfold seriesEntryRecords at ha
          rcases List.mem_append.mp ha with ha | ha
          · rcases List.mem_append.mp ha with ha | ha
            · rcases List.mem_append.mp ha with ha | ha
              · rcases mem_weatherRecords _ a r ha with hw | hw
                · exact Or.inr (Or.inr (Or.inl hw))
                · exact Or.inr (Or.inr (Or.inr (Or.inl hw)))
              · exact Or.inr (Or.inr (Or.inr (Or.inr (Or.inl
                  (mem_tempRecords a r ha)))))
            · exact Or.inr (Or.inr (Or.inr (Or.inr (Or.inr (Or.inl
                (mem_windRecords a r ha))))))
          · exact Or.inr (Or.inr (Or.inr (Or.inr (Or.inr (Or.inr
              (Or.inl (mem_waveRecords a r ha)))))))
  · simp at h
    exact Or.inr (Or.inr (Or.inr (Or.inr (Or.inr (Or.inr (Or.inr h))))))

/-- The per-forecast record list always ends with the separator, so it is
never empty. -/
theorem forecastRecords_ne_nil (af : AreaForecast) :
    forecastRecords af ≠ [] := by
  unfold forecastRecords
  simp

/-- Neither terminal record ever appears among per-forecast records. -/
theorem terminal_not_mem_flatMap (doc : List AreaForecast) :
    DisplayRecord.noData ∉ doc.flatMap forecastRecords ∧
    DisplayRecord.empty ∉ doc.flatMap forecastRecords := by
  constructor <;>
  · intro hmem
    obtain ⟨af, _, h⟩ := List.mem_flatMap.mp hmem
    rcases mem_forecastRecords af _ h with ⟨n, hh⟩ | ⟨s, hh⟩ | ⟨n, hh⟩ |
      ⟨i, d, w, c, hh⟩ | ⟨s, hh⟩ | ⟨s, hh⟩ | ⟨s, hh⟩ | hh <;> simp at hh

/-- On a non-empty document the extractor returns exactly the concatenated
per-forecast records (the final NO DISPLAYABLE DATA check never fires,
because each forecast contributes its separator). -/
theorem display_weather_info_cons (af : AreaForecast)
    (rest : List AreaForecast) :
    display_weather_info (af :: rest) =
      (af :: rest).flatMap forecastRecords := by
  have hne : (af :: rest).flatMap forecastRecords ≠ [] := by
    intro hc
    rw [List.flatMap_cons] at hc
    exact forecastRecords_ne_nil af (List.append_eq_nil.mp hc).1
  have h2 : ((af :: rest).flatMap forecastRecords).isEmpty = false := by
    rw [Bool.eq_false_iff]
    intro h
    exact hne (List.isEmpty_iff.mp h)
  unfold display_weather_info
  simp only [List.isEmpty_cons, Bool.false_eq_true, if_false, h2]

/-- C2 counterexample: on a document with exactly one area-forecast lacking
every recognized field, the code emits exactly one separator and nothing
more — the claimed trailing NO DISPLAYABLE DATA record is not appended,
because the separator already makes the sequence non-empty. -/
theorem C2_counterexample :
    display_weather_info [{ : AreaForecast }] = [DisplayRecord.separator] ∧
    display_weather_info [{ : AreaForecast }] ≠
      [DisplayRecord.separator, DisplayRecord.empty] := by
  constructor <;> decide

/-- C2 amended: on a document with exactly one area-forecast lacking every
recognized field, `AreaHeader` and `Timestamp` are suppressed and the output
is exactly one `Separator`; no `empty` record follows, since the separator
emitted for the forecast makes the whole sequence non-empty, so the final
emptiness check never fires on a non-empty document. -/
theorem C2_amended (af : AreaForecast) (ha : af.area = none)
    (hr : af.reportDatetime = none) (ht : af.timeSeries = none) :
    display_weather_info [af] = [DisplayRecord.separator] := by
  obtain ⟨a, r, t⟩ := af
  simp only at ha hr ht
  subst ha hr ht
  decide

/-- Witness for C2 amended at the all-absent forecast. -/
theorem C2_amended_witness :
    display_weather_info [{ : AreaForecast }] = [DisplayRecord.separator] :=
  C2_amended { : AreaForecast } rfl rfl rfl

/-- C6: the NO DATA AVAILABLE record is emitted exactly when the input array
is empty (and is then the whole output); the NO DISPLAYABLE DATA record is
emitted exactly when the input is non-empty yet produced no other record
(a situation that in fact never arises, each forecast emitting its
separator); the two terminal records are distinct tagged values; and the
embedding is a total function, so no exception is raised. -/
theorem C6_terminal_records (doc : List AreaForecast) :
    (DisplayRecord.noData ∈ display_weather_info doc ↔ doc = []) ∧
    (DisplayRecord.empty ∈ display_weather_info doc ↔
      (doc ≠ [] ∧ doc.flatMap forecastRecords = [])) ∧
    (doc = [] → display_weather_info doc = [DisplayRecord.noData]) ∧
    DisplayRecord.noData ≠ DisplayRecord.empty := by
  cases doc with
  | nil =>
    refine ⟨by simp [display_weather_info], ?_, fun _ => rfl, by decide⟩
    simp [display_weather_info]
  | cons af rest =>
    have hne : (af :: rest).flatMap forecastRecords ≠ [] := by
      intro hc
      rw [List.flatMap_cons] at hc
      exact forecastRecords_ne_nil af (List.append_eq_nil.mp hc).1
    rw [display_weather_info_cons af rest]
    refine ⟨?_, ?_, by simp, by decide⟩
    · constructor
      · intro hmem
        exact absurd hmem (terminal_not_mem_flatMap (af :: rest)).1
      · intro h
        exact absurd h (List.cons_ne_nil af rest)
    · constructor
      · intro hmem
        exact absurd hmem (terminal_not_mem_flatMap (af :: rest)).2
      · rintro ⟨-, hnil⟩
        exact absurd hnil hne

/-- Witness for C6 at the empty document. -/
theorem C6_terminal_records_witness :
    display_weather_info [] = [DisplayRecord.noData] :=
  (C6_terminal_records []).2.2.1 rfl

/-- C3 counterexample: the fallback string for the unmapped code `999` is
the Japanese `不明(999)`, not the literal string `unknown(999)` the claim
states. -/
theorem C3_counterexample :
    get_weather_text "999" = "不明(999)" ∧
    get_weather_text "999" ≠ "unknown(999)" := by
  constructor <;> decide

/-- C3 amended: for every code string not present in the static table,
`get_weather_text` returns exactly the synthesized fallback `不明(<code>)`
(the Japanese word for "unknown" wrapping the original code) — in particular
it returns `不明(999)` for `999` — and, being a total function, it never
raises for any input code string. -/
theorem C3_unknown_code_fallback (code : String)
    (h : weather_map.lookup code = none) :
    get_weather_text code = "不明(" ++ code ++ ")" := by
  unfold get_weather_text
  rw [h]

/-- Witness for C3 amended at the unmapped code `999`. -/
theorem C3_unknown_code_fallback_witness :
    get_weather_text "999" = "不明(" ++ "999" ++ ")" :=
  C3_unknown_code_fallback "999" (by decide)

/-- C4 counterexample: an area-forecast whose `area` object is present but
has no `name` field still gets a header — with the fixed placeholder `不明`
— whereas the claim says nothing is emitted when `area.name` is absent. -/
theorem C4_counterexample :
    display_weather_info [{ area := some ⟨none⟩ : AreaForecast }] =
      [DisplayRecord.areaHeader "不明", DisplayRecord.separator] ∧
    display_weather_info [{ area := some ⟨none⟩ : AreaForecast }] ≠
      [DisplayRecord.separator] := by
  constructor <;> decide

/-- C4 amended: the header step emits an `AreaHeader` record if and only if
the `area` key itself is present in the area-forecast entry; when `area` is
absent nothing is emitted for this step, but when `area` is present and its
`name` is absent the header carries the fixed placeholder `不明`. -/
theorem C4_area_header_condition (af : AreaForecast) :
    (af.area = none → headerRecords af = []) ∧
    (∀ ar, af.area = some ar →
      headerRecords af =
        [DisplayRecord.areaHeader (ar.name.getD "不明")]) := by
  constructor
  · intro h
    unfold headerRecords
    rw [h]
  · intro ar h
    unfold headerRecords
    rw [h]

/-- Witness for C4 amended: with `area` present and `name` absent the
placeholder header is emitted. -/
theorem C4_area_header_condition_witness :
    headerRecords { area := some ⟨none⟩ : AreaForecast } =
      [DisplayRecord.areaHeader "不明"] :=
  (C4_area_header_condition { area := some ⟨none⟩ : AreaForecast }).2
    ⟨none⟩ rfl

/-- Splitting a chunk free of the separator returns the single chunk. -/
theorem splitOnChar_of_no_sep (c : Char) (xs : List Char)
    (h : xs.any (fun x => x = c) = false) : splitOnChar c xs = [xs] := by
  induction xs with
  | nil => rfl
  | cons x xs ih =>
    simp only [List.any_cons, Bool.or_eq_false_iff] at h
    have hx : x ≠ c := by
      intro hc
      rw [hc] at h
      simp at h
    simp only [splitOnChar]
    rw [if_neg hx, ih h.2]

/-- Splitting at the first separator occurrence peels off the prefix. -/
theorem splitOnChar_append (c : Char) (xs ys : List Char)
    (h : xs.any (fun x => x = c) = false) :
    splitOnChar c (xs ++ c :: ys) = xs :: splitOnChar c ys := by
  induction xs with
  | nil =>
    simp [splitOnChar]
  | cons x xs ih =>
    simp only [List.any_cons, Bool.or_eq_false_iff] at h
    have hx : x ≠ c := by
      intro hc
      rw [hc] at h
      simp at h
    simp only [List.cons_append, splitOnChar, List.append_eq]
    rw [if_neg hx, ih h.2]

/-- On a dash-separated date followed by a `T` time part, `dateShortL`
yields the slash-joined second and third dash components. -/
theorem dateShortL_good (y m d rest : List Char)
    (hyT : y.any (fun x => x = 'T') = false)
    (hmT : m.any (fun x => x = 'T') = false)
    (hdT : d.any (fun x => x = 'T') = false)
    (hyD : y.any (fun x => x = '-') = false)
    (hmD : m.any (fun x => x = '-') = false)
    (hdD : d.any (fun x => x = '-') = false) :
    dateShortL (y ++ '-' :: m ++ '-' :: d ++ 'T' :: rest) = m ++ '/' :: d := by
  have hdashT : (decide (('-' : Char) = 'T')) = false := by decide
  have hassoc : y ++ '-' :: m ++ '-' :: d ++ 'T' :: rest =
      (y ++ '-' :: (m ++ '-' :: d)) ++ 'T' :: rest := by
    simp [List.append_assoc]
  have hxsT : (y ++ '-' :: (m ++ '-' :: d)).any (fun x => x = 'T') = false := by
    simp only [List.any_append, List.any_cons, hyT, hmT, hdT, hdashT,
      Bool.or_false, Bool.false_or]
  have hxsD : (y ++ '-' :: (m ++ '-' :: d)).any (fun x => x = '-') = true := by
    simp [List.any_append]
  have hT : ((y ++ '-' :: (m ++ '-' :: d)) ++ 'T' :: rest).any
      (fun x => x = 'T') = true := by
    simp [List.any_append]
  rw [hassoc]
  unfold dateShortL
  rw [hT, if_pos rfl, splitOnChar_append 'T' _ rest hxsT]
  simp only [List.headD_cons]
  rw [hxsD, if_pos rfl, splitOnChar_append '-' y (m ++ '-' :: d) hyD,
    splitOnChar_append '-' m d hmD, splitOnChar_of_no_sep '-' d hdD]
  rfl

/-- Without a `T`, `dateShortL` is truncation to the first 10 characters. -/
theorem dateShortL_noT (cs : List Char)
    (h : cs.any (fun x => x = 'T') = false) :
    dateShortL cs = cs.take 10 := by
  unfold dateShortL
  rw [h]
  simp only [Bool.false_eq_true, if_false]
  split
  · rfl
  · rename_i hlen
    rw [List.take_of_length_le (Nat.le_of_lt (Nat.lt_of_not_le hlen))]

/-- With a `T` but no dash in the portion before the first `T`, that
portion is kept verbatim. -/
theorem dateShortL_T_noDash (pre rest : List Char)
    (hpreT : pre.any (fun x => x = 'T') = false)
    (hpreD : pre.any (fun x => x = '-') = false) :
    dateShortL (pre ++ 'T' :: rest) = pre := by
  have hT : (pre ++ 'T' :: rest).any (fun x => x = 'T') = true := by
    simp [List.any_append]
  unfold dateShortL
  rw [hT, if_pos rfl, splitOnChar_append 'T' pre rest hpreT]
  simp only [List.headD_cons]
  rw [hpreD]
  simp only [Bool.false_eq_true, if_false]

/-- With a `T` and exactly one dash in the portion before the first `T`,
the slash-join of components 1 and 2 degenerates to the single component
after the dash. -/
theorem dateShortL_one_dash (y m rest : List Char)
    (hyT : y.any (fun x => x = 'T') = false)
    (hmT : m.any (fun x => x = 'T') = false)
    (hyD : y.any (fun x => x = '-') = false)
    (hmD : m.any (fun x => x = '-') = false) :
    dateShortL (y ++ '-' :: m ++ 'T' :: rest) = m := by
  have hdashT : (decide (('-' : Char) = 'T')) = false := by decide
  have hassoc : y ++ '-' :: m ++ 'T' :: rest =
      (y ++ '-' :: m) ++ 'T' :: rest := by
    simp [List.append_assoc]
  have hpreT : (y ++ '-' :: m).any (fun x => x = 'T') = false := by
    simp only [List.any_append, List.any_cons, hyT, hmT, hdashT,
      Bool.or_false, Bool.false_or]
  have hpreD : (y ++ '-' :: m).any (fun x => x = '-') = true := by
    simp [List.any_append]
  have hT : ((y ++ '-' :: m) ++ 'T' :: rest).any (fun x => x = 'T') =
      true := by
    simp [List.any_append]
  rw [hassoc]
  unfold dateShortL
  rw [hT, if_pos rfl, splitOnChar_append 'T' _ rest hpreT]
  simp only [List.headD_cons]
  rw [hpreD, if_pos rfl, splitOnChar_append '-' y m hyD,
    splitOnChar_of_no_sep '-' m hmD]
  rfl

/-- With a `T` and three or more dashes in the portion before the first
`T`, the slash-join still keeps exactly components 1 and 2 of the
dash-split (everything after the third dash is dropped by the take). -/
theorem dateShortL_many_dash (y m d e rest : List Char)
    (hyT : y.any (fun x => x = 'T') = false)
    (hmT : m.any (fun x => x = 'T') = false)
    (hdT : d.any (fun x => x = 'T') = false)
    (heT : e.any (fun x => x = 'T') = false)
    (hyD : y.any (fun x => x = '-') = false)
    (hmD : m.any (fun x => x = '-') = false)
    (hdD : d.any (fun x => x = '-') = false) :
    dateShortL (y ++ '-' :: m ++ '-' :: d ++ '-' :: e ++ 'T' :: rest) =
      m ++ '/' :: d := by
  have hdashT : (decide (('-' : Char) = 'T')) = false := by decide
  have hassoc : y ++ '-' :: m ++ '-' :: d ++ '-' :: e ++ 'T' :: rest =
      (y ++ '-' :: (m ++ '-' :: (d ++ '-' :: e))) ++ 'T' :: rest := by
    simp [List.append_assoc]
  have hpreT : (y ++ '-' :: (m ++ '-' :: (d ++ '-' :: e))).any
      (fun x => x = 'T') = false := by
    simp only [List.any_append, List.any_cons, hyT, hmT, hdT, heT, hdashT,
      Bool.or_false, Bool.false_or]
  have hpreD : (y ++ '-' :: (m ++ '-' :: (d ++ '-' :: e))).any
      (fun x => x = '-') = true := by
    simp [List.any_append]
  have hT : ((y ++ '-' :: (m ++ '-' :: (d ++ '-' :: e))) ++ 'T' :: rest).any
      (fun x => x = 'T') = true := by
    simp [List.any_append]
  rw [hassoc]
  unfold dateShortL
  rw [hT, if_pos rfl, splitOnChar_append 'T' _ rest hpreT]
  simp only [List.headD_cons]
  rw [hpreD, if_pos rfl,
    splitOnChar_append '-' y (m ++ '-' :: (d ++ '-' :: e)) hyD,
    splitOnChar_append '-' m (d ++ '-' :: e) hmD,
    splitOnChar_append '-' d e hdD]
  rfl

/-- C5 counterexample: for `20240101T00` (time separator present, no dash in
the date portion) the code keeps the whole date portion `20240101`, while
the claim prescribes the first 10 characters of the raw string,
`20240101T0`; and for `2024-01-01` (a YYYY-MM-DD-shaped string with no time
separator) the code keeps the first 10 characters `2024-01-01`, while the
claim prescribes the reformatted `01/01`. -/
theorem C5_counterexample :
    dateShort "20240101T00" = "20240101" ∧
    dateShort "20240101T00" ≠ "20240101T0" ∧
    dateShort "2024-01-01" = "2024-01-01" ∧
    dateShort "2024-01-01" ≠ "01/01" := by
  refine ⟨by decide, by decide, by decide, by decide⟩

/-- C5 amended: `dateShort` first tests for the time separator `T`, and
the following cases are exhaustive. With no `T` at all, `dateShort` is the
first 10 characters of the raw string (the whole string when shorter), even
for a YYYY-MM-DD-shaped date. With a `T`, the portion before the first `T`
is taken: if it has no dash it is used verbatim; if it has dashes, the
components of its dash-split at positions 1 and 2 are slash-joined — the
single component after the dash when there is exactly one dash, `MM/DD` for
a `YYYY-MM-DDThh:mm`-shaped string, and still only components 1 and 2 when
there are three or more dashes. -/
theorem C5_date_short_rule :
    (∀ cs : List Char, cs.any (fun x => x = 'T') = false →
      dateShort (String.mk cs) = String.mk (cs.take 10)) ∧
    (∀ pre rest : List Char, pre.any (fun x => x = 'T') = false →
      pre.any (fun x => x = '-') = false →
      dateShort (String.mk (pre ++ 'T' :: rest)) = String.mk pre) ∧
    (∀ y m rest : List Char,
      y.any (fun x => x = 'T') = false →
      m.any (fun x => x = 'T') = false →
      y.any (fun x => x = '-') = false →
      m.any (fun x => x = '-') = false →
      dateShort (String.mk (y ++ '-' :: m ++ 'T' :: rest)) = String.mk m) ∧
    (∀ y m d rest : List Char,
      y.any (fun x => x = 'T') = false →
      m.any (fun x => x = 'T') = false →
      d.any (fun x => x = 'T') = false →
      y.any (fun x => x = '-') = false →
      m.any (fun x => x = '-') = false →
      d.any (fun x => x = '-') = false →
      dateShort (String.mk (y ++ '-' :: m ++ '-' :: d ++ 'T' :: rest)) =
        String.mk (m ++ '/' :: d)) ∧
    (∀ y m d e rest : List Char,
      y.any (fun x => x = 'T') = false →
      m.any (fun x => x = 'T') = false →
      d.any (fun x => x = 'T') = false →
      e.any (fun x => x = 'T') = false →
      y.any (fun x => x = '-') = false →
      m.any (fun x => x = '-') = false →
      d.any (fun x => x = '-') = false →
      dateShort
          (String.mk (y ++ '-' :: m ++ '-' :: d ++ '-' :: e ++ 'T' :: rest)) =
        String.mk (m ++ '/' :: d)) := by
  refine ⟨?_, ?_, ?_, ?_, ?_⟩
  · intro cs hcs
    exact congrArg String.mk (dateShortL_noT cs hcs)
  · intro pre rest hpreT hpreD
    exact congrArg String.mk (dateShortL_T_noDash pre rest hpreT hpreD)
  · intro y m rest hyT hmT hyD hmD
    exact congrArg String.mk (dateShortL_one_dash y m rest hyT hmT hyD hmD)
  · intro y m d rest hyT hmT hdT hyD hmD hdD
    exact congrArg String.mk (dateShortL_good y m d rest hyT hmT hdT hyD hmD hdD)
  · intro y m d e rest hyT hmT hdT heT hyD hmD hdD
    exact congrArg String.mk
      (dateShortL_many_dash y m d e rest hyT hmT hdT heT hyD hmD hdD)

/-- Witness for C5 amended, one concrete instance per branch: the `T`-free
`20240101`, the dash-free portion `20240101T00`, the one-dash portion
`2024-01T00`, the two-dash portion `2024-01-05T11`, and the three-dash
portion `2024-01-05-xT0`. -/
theorem C5_date_short_rule_witness :
    dateShort (String.mk ['2', '0', '2', '4', '0', '1', '0', '1']) =
      String.mk (['2', '0', '2', '4', '0', '1', '0', '1'].take 10) ∧
    dateShort (String.mk (['2', '0', '2', '4', '0', '1', '0', '1'] ++
        'T' :: ['0', '0'])) =
      String.mk ['2', '0', '2', '4', '0', '1', '0', '1'] ∧
    dateShort (String.mk (['2', '0', '2', '4'] ++ '-' :: ['0', '1'] ++
        'T' :: ['0', '0'])) = String.mk ['0', '1'] ∧
    dateShort (String.mk (['2', '0', '2', '4'] ++ '-' :: ['0', '1'] ++
        '-' :: ['0', '5'] ++ 'T' :: ['1', '1'])) =
      String.mk (['0', '1'] ++ '/' :: ['0', '5']) ∧
    dateShort (String.mk (['2', '0', '2', '4'] ++ '-' :: ['0', '1'] ++
        '-' :: ['0', '5'] ++ '-' :: ['x'] ++ 'T' :: ['0'])) =
      String.mk (['0', '1'] ++ '/' :: ['0', '5']) :=
  ⟨C5_date_short_rule.1 ['2', '0', '2', '4', '0', '1', '0', '1'] (by decide),
   C5_date_short_rule.2.1 ['2', '0', '2', '4', '0', '1', '0', '1']
     ['0', '0'] (by decide) (by decide),
   C5_date_short_rule.2.2.1 ['2', '0', '2', '4'] ['0', '1'] ['0', '0']
     (by decide) (by decide) (by decide) (by decide),
   C5_date_short_rule.2.2.2.1 ['2', '0', '2', '4'] ['0', '1'] ['0', '5']
     ['1', '1'] (by decide) (by decide) (by decide) (by decide) (by decide)
     (by decide),
   C5_date_short_rule.2.2.2.2 ['2', '0', '2', '4'] ['0', '1'] ['0', '5']
     ['x'] ['0'] (by decide) (by decide) (by decide) (by decide) (by decide)
     (by decide) (by decide)⟩

/-- Equation lemma: the temps branch with `temps` present. -/
theorem tempRecords_some (a : AreaSeriesEntry) (temps : List (Option String))
    (h : a.temps = some temps) :
    tempRecords a =
      if temps.isEmpty then []
      else [DisplayRecord.tempLine (joinSep " | " (temps.map formatTemp))] := by
  unfold tempRecords
  rw [h]

/-- C7: whenever `temps` is present and non-empty exactly one `TempLine` is
emitted, joining with the separator the per-entry cells, where a present
non-empty value is padded on the left to 3 characters (right-aligned) and
suffixed with the Celsius unit, and an absent or empty entry renders as the
placeholder dash cell; when `temps` is absent or empty no `TempLine` is
emitted. -/
theorem C7_temp_line (a : AreaSeriesEntry) :
    (∀ temps, a.temps = some temps → temps ≠ [] →
      tempRecords a =
        [DisplayRecord.tempLine (joinSep " | " (temps.map formatTemp))]) ∧
    (a.temps = none → tempRecords a = []) ∧
    (a.temps = some [] → tempRecords a = []) ∧
    (∀ t : String, t ≠ "" → formatTemp (some t) = padLeft3 t ++ "°C") ∧
    (∀ t : String, t ≠ "" → (padLeft3 t).length = max 3 t.length) ∧
    formatTemp none = "  -" ∧
    formatTemp (some "") = "  -" := by
  refine ⟨?_, ?_, ?_, ?_, ?_, rfl, rfl⟩
  · intro temps h hne
    rw [tempRecords_some a temps h,
      if_neg (fun hc => hne (List.isEmpty_iff.mp hc))]
  · intro h
    unfold tempRecords
    rw [h]
  · intro h
    rw [tempRecords_some a [] h]
    rfl
  · intro t ht
    show (if t.isEmpty = true then "  -" else padLeft3 t ++ "°C") =
      padLeft3 t ++ "°C"
    rw [if_neg (fun hc => ht ((String.isEmpty_iff t).mp hc))]
  · intro t ht
    unfold padLeft3
    split
    · rename_i hge
      exact (Nat.max_eq_right hge).symm
    · rename_i hlt
      have h1 : (String.mk (List.replicate (3 - t.length) ' ')).length =
          3 - t.length := List.length_replicate (3 - t.length) ' '
      rw [String.length_append, h1]
      omega

/-- Witness for C7 on temps `["5", null, "23"]`. -/
theorem C7_temp_line_witness :
    tempRecords
      { temps := some [some "5", none, some "23"] : AreaSeriesEntry } =
      [DisplayRecord.tempLine (joinSep " | "
        ([some "5", none, some "23"].map formatTemp))] ∧
    formatTemp (some "5") = padLeft3 "5" ++ "°C" :=
  ⟨(C7_temp_line { temps := some [some "5", none, some "23"] }).1
      [some "5", none, some "23"] rfl (by decide),
   (C7_temp_line { temps := some [some "5", none, some "23"] }).2.2.2.1
      "5" (by decide)⟩

/-- C8 counterexample: a directory whose only entry carries an empty-string
`name` still contributes one catalog entry — the code checks only that the
`name` key is present (line 154), not that it is non-empty — whereas the
claim admits one entry per directory entry with a non-empty name, hence
predicts an empty catalog here. -/
theorem C8_counterexample :
    load_area_list
      { centers := some [("A", ⟨some ""⟩)] : AreaDirectory } =
      [AreaEntry.mk "A" "" AreaType.center] ∧
    load_area_list
      { centers := some [("A", ⟨some ""⟩)] : AreaDirectory } ≠ [] := by
  constructor <;> decide

/-- C8 amended: the catalog holds exactly one `AreaEntry` (tagged `center`
or `office`) for each directory entry whose `name` field is present — an
empty-string name still qualifies — it is a permutation of those entries
sorted ascending by display name (deterministically, by a stable sort), a
missing `centers` or `offices` key contributes zero entries from that
source, an input missing both keys yields the empty sequence, and the
function is total, so it never fails. -/
theorem C8_catalog (d : AreaDirectory) :
    (load_area_list d).Perm (areaListRaw d) ∧
    List.Sorted (fun a b : AreaEntry => a.name ≤ b.name) (load_area_list d) ∧
    (d.centers = none → d.offices = none → load_area_list d = []) ∧
    (∀ cs code info n, d.centers = some cs → (code, info) ∈ cs →
      info.name = some n →
      AreaEntry.mk code n AreaType.center ∈ load_area_list d) ∧
    (∀ os code info n, d.offices = some os → (code, info) ∈ os →
      info.name = some n →
      AreaEntry.mk code n AreaType.office ∈ load_area_list d) := by
  have hperm : (load_area_list d).Perm (areaListRaw d) :=
    List.perm_insertionSort (fun a b : AreaEntry => a.name ≤ b.name)
      (areaListRaw d)
  haveI : IsTotal AreaEntry (fun a b => a.name ≤ b.name) :=
    ⟨fun a b => le_total a.name b.name⟩
  haveI : IsTrans AreaEntry (fun a b => a.name ≤ b.name) :=
    ⟨fun a b c hab hbc => le_trans hab hbc⟩
  refine ⟨hperm, ?_, ?_, ?_, ?_⟩
  · exact List.sorted_insertionSort (fun a b : AreaEntry => a.name ≤ b.name)
      (areaListRaw d)
  · intro h1 h2
    unfold load_area_list areaListRaw
    rw [h1, h2]
    rfl
  · intro cs code info n hcs hmem hname
    rw [hperm.mem_iff]
    unfold areaListRaw
    rw [hcs]
    exact List.mem_append.mpr (Or.inl (List.mem_filterMap.mpr
      ⟨(code, info), hmem, by simp [hname]⟩))
  · intro os code info n hos hmem hname
    rw [hperm.mem_iff]
    unfold areaListRaw
    rw [hos]
    exact List.mem_append.mpr (Or.inr (List.mem_filterMap.mpr
      ⟨(code, info), hmem, by simp [hname]⟩))

/-- Witness for C8 amended on a two-entry directory. -/
theorem C8_catalog_witness :
    AreaEntry.mk "B" "Osaka" AreaType.office ∈ load_area_list
      (AreaDirectory.mk (some [("A", AreaDirInfo.mk (some "Tokyo"))])
        (some [("B", AreaDirInfo.mk (some "Osaka"))])) :=
  (C8_catalog
      (AreaDirectory.mk (some [("A", AreaDirInfo.mk (some "Tokyo"))])
        (some [("B", AreaDirInfo.mk (some "Osaka"))]))).2.2.2.2
    [("B", AreaDirInfo.mk (some "Osaka"))] "B"
    (AreaDirInfo.mk (some "Osaka")) "Osaka" rfl (by decide) rfl

/-- C9: a time-series block missing the `timeDefines` key (or the `areas`
key) contributes no records at all — whatever its entries carry — and a
forecast whose blocks all lack one of the two keys reduces to header,
timestamp and separator only. -/
theorem C9_missing_keys_suppress_block (ts : TimeSeriesBlock) :
    (ts.timeDefines = none → blockRecords ts = []) ∧
    (ts.areas = none → blockRecords ts = []) ∧
    (∀ af : AreaForecast, ∀ tss, af.timeSeries = some tss →
      (∀ b ∈ tss, b.timeDefines = none ∨ b.areas = none) →
      forecastRecords af =
        headerRecords af ++ timestampRecords af ++
          [DisplayRecord.separator]) := by
  refine ⟨?_, ?_, ?_⟩
  · intro h
    unfold blockRecords
    rw [h]
  · intro h
    unfold blockRecords
    split
    · rfl
    · rw [h]
  · intro af tss hts hall
    have hflat : ∀ l : List TimeSeriesBlock,
        (∀ b ∈ l, b.timeDefines = none ∨ b.areas = none) →
        l.flatMap blockRecords = [] := by
      intro l
      induction l with
      | nil => intro _; rfl
      | cons b bs ih =>
        intro hl
        rw [List.flatMap_cons]
        have hb : blockRecords b = [] := by
          rcases hl b (List.mem_cons_self b bs) with h | h
          · unfold blockRecords
            rw [h]
          · unfold blockRecords
            split
            · rfl
            · rw [h]
        rw [hb, List.nil_append]
        exact ih (fun x hx => hl x (List.mem_cons_of_mem b hx))
    unfold forecastRecords
    rw [hts]
    show headerRecords af ++ timestampRecords af ++
        tss.flatMap blockRecords ++ [DisplayRecord.separator] = _
    rw [hflat tss hall, List.append_nil]

/-- Witness for C9: a block with no `timeDefines` whose only entry carries
both weather codes and temps still contributes nothing. -/
theorem C9_missing_keys_suppress_block_witness :
    blockRecords (TimeSeriesBlock.mk none (some [AreaSeriesEntry.mk none (some ["100"]) (some [some "5"]) none none])) = [] :=
  (C9_missing_keys_suppress_block (TimeSeriesBlock.mk none (some [AreaSeriesEntry.mk none (some ["100"]) (some [some "5"]) none none]))).1 rfl

/-- C10: an area-series entry with `weatherCodes` present but `area.name`
absent (no `area` object, or one without `name`) still gets its
`ForecastLine` header, carrying the empty string as area name with no
placeholder; by contrast the top-level per-forecast header substitutes the
fixed non-empty placeholder `不明` when its name is missing. -/
theorem C10_inner_header_empty_name (time_defines : List String)
    (a : AreaSeriesEntry) (codes : List String)
    (hc : a.weatherCodes = some codes)
    (hn : a.area = none ∨ a.area = some (AreaName.mk none)) :
    (weatherRecords time_defines a).head? =
      some (DisplayRecord.forecastLine "") ∧
    (∀ af : AreaForecast, ∀ ar, af.area = some ar → ar.name = none →
      headerRecords af = [DisplayRecord.areaHeader "不明"]) ∧
    ("不明" : String) ≠ "" := by
  have hname : entryAreaName a = "" := by
    rcases hn with h | h
    · unfold entryAreaName
      rw [h]
    · unfold entryAreaName
      rw [h]
      rfl
  refine ⟨?_, ?_, by decide⟩
  · rw [weatherRecords_some time_defines a codes hc, hname]
    rfl
  · intro af ar h1 h2
    have he : headerRecords af =
        [DisplayRecord.areaHeader (ar.name.getD "不明")] := by
      unfold headerRecords
      rw [h1]
    rw [he, h2]
    rfl

/-- Witness for C10: entry with `area` present but nameless. -/
theorem C10_inner_header_empty_name_witness :
    (weatherRecords ["2024-01-01T00:00:00"]
      { area := some ⟨none⟩, weatherCodes := some ["100"] }).head? =
      some (DisplayRecord.forecastLine "") ∧
    headerRecords { area := some ⟨none⟩ : AreaForecast } =
      [DisplayRecord.areaHeader "不明"] :=
  ⟨(C10_inner_header_empty_name ["2024-01-01T00:00:00"]
      { area := some ⟨none⟩, weatherCodes := some ["100"] } ["100"] rfl
      (Or.inr rfl)).1,
   (C10_inner_header_empty_name ["2024-01-01T00:00:00"]
      { area := some ⟨none⟩, weatherCodes := some ["100"] } ["100"] rfl
      (Or.inr rfl)).2.1 { area := some ⟨none⟩ } ⟨none⟩ rfl rfl⟩
